/-
Verification of the PyTROModelling repository specification.

Shallow embedding of the two subsystems:
  - the kernel-approximation component (Kernel_approximation with the
    Nystrom_standard, Nystrom_ensemble and QRdecomposition operations),
    used from examples/model_order_reduction/kernelApproximation.py; the
    class body itself is not shipped in this repository snapshot, so it is
    modelled from the specification where noted;
  - the neural-network training recipes of src/ANN.py (MLP_classifier,
    Autoencoder, MLP_regressor): parameter holders with validated property
    setters, plus side-effecting fit operations whose file-system and
    training effects are recorded as an explicit effect trace.

Numeric matrix entries are modelled as rationals; the radial-basis-function
kernel itself (a real exponential) and the external training framework are
parameters of the embedding, since the repository delegates both to
external libraries.
-/
import Mathlib

/-- A dense numeric matrix, stored row-major as in the Python code
(rows = observations, columns = variables). -/
abbrev Mat : Type := List (List ℚ)

/-- Number of rows of a matrix (the numpy shape component 0). -/
def nRows (X : Mat) : Nat := X.length

/-- Number of columns of a matrix (the numpy shape component 1, read off
the first row as numpy does for a rectangular array). -/
def nCols (X : Mat) : Nat := (X.headD []).length

/-- Dot product of two rows. -/
def dot (a b : List ℚ) : ℚ := (List.zipWith (fun x y => x * y) a b).sum

/-- The property of being a dense n-by-n matrix. -/
def isSquareOf (K : Mat) (n : Nat) : Prop :=
  K.length = n ∧ ∀ r ∈ K, r.length = n

/-- Configuration mapping handed to the kernel-approximation component,
transcribed from the settings dictionary of
examples/model_order_reduction/kernelApproximation.py. -/
structure KAsettings where
  number_to_pick : Int
  sigma : ℚ
  rank : Int
  number_of_matrices : Int
deriving DecidableEq

/-- The kernel-approximation model object: it stores the input data matrix
and the settings, as built by mor.Kernel_approximation(X_tilde, settings). -/
structure Kernel_approximation where
  X : Mat
  settings : KAsettings
deriving DecidableEq

/-- Modelled from the spec: a landmark draw is one contiguous block of
number_to_pick row indices starting at a randomly chosen row (spec section 3:
one contiguous block of size number_to_pick per draw). The random start is a
parameter of the embedding. -/
def drawIndices (start m : Nat) : List Nat :=
  (List.range m).map (fun a => start + a)

/-- Row lookup for a list of row indices: fails as soon as an index is
beyond the number of rows, as the underlying array access does. -/
def fetchRows (X : Mat) : List Nat → Option Mat
  | [] => some []
  | i :: is =>
      match X[i]?, fetchRows X is with
      | some r, some rs => some (r :: rs)
      | _, _ => none

/-- Modelled from the spec: fetching the landmark rows of the data matrix at
the drawn indices. An index beyond the number of rows makes the underlying
array access fail, which is the unrelated indexing error the spec warns
about; no configuration validation happens before this access. -/
def fetchLandmarks (X : Mat) (start : Nat) (m : Int) : Option Mat :=
  fetchRows X (drawIndices start m.toNat)

/-- The error message surfaced when a landmark row access goes out of
range. -/
def landmarkIndexErr : String := "IndexError: landmark row index out of range"

/-- Modelled from the spec: one entry of the Nystrom reconstruction
crossBlock * pinv(subBlock) * transpose(crossBlock), written entrywise:
entry (i, j) is the sum over landmark indices a, b of
k(x_i, l_a) * pinvW(a, b) * k(x_j, l_b). The pseudo-inverse pinvW of the
landmark sub-block is delegated to the external linear-algebra library and
is therefore a parameter of the embedding. -/
def quadForm (k : List ℚ → List ℚ → ℚ) (lands : Mat) (pinvW : Mat)
    (xi xj : List ℚ) : ℚ :=
  ((lands.zip pinvW).map (fun ap =>
    k xi ap.1 * ((ap.2.zip lands).map (fun bl => bl.1 * k xj bl.2)).sum)).sum

/-- Modelled from the spec: standard Nystrom approximation (spec section 4.1).
Draw one landmark block of size number_to_pick, then reconstruct the n-by-n
approximation crossBlock * pinv(subBlock) * transpose(crossBlock). The kernel
function k and the pseudo-inverse of the landmark sub-block are parameters
(both delegated to external libraries). The operation returns the result
together with the model object after the call, so that absence of mutation
of the stored data matrix is an explicit part of the embedding. -/
def Nystrom_standard (k : List ℚ → List ℚ → ℚ) (mdl : Kernel_approximation)
    (start : Nat) (pinvW : Mat) : Except String Mat × Kernel_approximation :=
  match fetchLandmarks mdl.X start mdl.settings.number_to_pick with
  | none => (Except.error landmarkIndexErr, mdl)
  | some lands =>
      (Except.ok (mdl.X.map (fun xi => mdl.X.map (fun xj =>
        quadForm k lands pinvW xi xj))), mdl)

/-- Modelled from the spec: one entry of the ensemble combination, the
simple mean over the draws of the per-draw Nystrom reconstruction entries
(spec section 4.1: combination is a simple mean). Each draw is a pair of a
random start row and the externally computed pseudo-inverse of its landmark
sub-block. -/
def ensembleEntry (k : List ℚ → List ℚ → ℚ) (X : Mat) (m : Int)
    (draws : List (Nat × Mat)) (xi xj : List ℚ) : ℚ :=
  ((draws.map (fun d =>
      quadForm k ((fetchLandmarks X d.1 m).getD []) d.2 xi xj)).sum) /
    (draws.length : ℚ)

/-- Modelled from the spec: ensemble Nystrom (spec section 4.1). Repeat the
standard procedure once per draw with independent landmark draws and combine
the resulting approximations by a simple mean. Landmark fetching is
performed for every draw, and an out-of-range landmark access surfaces as
the same indexing error as in the standard variant. -/
def Nystrom_ensemble (k : List ℚ → List ℚ → ℚ) (mdl : Kernel_approximation)
    (draws : List (Nat × Mat)) : Except String Mat × Kernel_approximation :=
  if ∀ d ∈ draws,
      (fetchLandmarks mdl.X d.1 mdl.settings.number_to_pick).isSome = true then
    (Except.ok (mdl.X.map (fun xi => mdl.X.map (fun xj =>
      ensembleEntry k mdl.X mdl.settings.number_to_pick draws xi xj))), mdl)
  else (Except.error landmarkIndexErr, mdl)

/-- Modelled from the spec: QR-based approximation (spec section 4.1). Draw
one landmark block, form the n-by-m cross-kernel block, take an orthogonal
factorization of it truncated to rank columns, and reconstruct the n-by-n
approximation from the truncated factors. The orthogonal factor Q (one row
per data row) is delegated to the external linear-algebra library and is a
parameter of the embedding; the reconstruction is the Gram matrix of the
rank-truncated rows of Q. -/
def QRdecomposition (k : List ℚ → List ℚ → ℚ) (mdl : Kernel_approximation)
    (start : Nat) (Q : Mat) : Except String Mat × Kernel_approximation :=
  match fetchLandmarks mdl.X start mdl.settings.number_to_pick with
  | none => (Except.error landmarkIndexErr, mdl)
  | some lands =>
      let _crossBlock := mdl.X.map (fun xi => lands.map (fun l => k xi l))
      let r := mdl.settings.rank.toNat
      (Except.ok ((List.range (nRows mdl.X)).map (fun i =>
        (List.range (nRows mdl.X)).map (fun j =>
          dot ((Q.getD i []).take r) ((Q.getD j []).take r)))), mdl)

/-- A file-system, console or training side effect performed by the
network-recipe operations of src/ANN.py, in program order. -/
inductive Effect
  | mkdirE (name : String)
  | chdirE (name : String)
  | writeFileE (name : String)
  | printE (msg : String)
  | trainE
  | savePlotE (name : String)
  | displayE
  | loadWeightsE (name : String)
deriving DecidableEq

/-- Result of running one Python method call: the object state after the
call (Python objects are mutated in place, so the state is meaningful even
when an exception was raised), the returned value or the raised exception
message, and the ordered trace of side effects performed. -/
structure PyCall (sigma : Type) (alpha : Type) where
  state : sigma
  result : Except String alpha
  effects : List Effect

/-- Whether the call raised an exception. -/
def PyCall.raised {sigma alpha : Type} (c : PyCall sigma alpha) : Bool :=
  match c.result with
  | Except.error _ => true
  | Except.ok _ => false

/-- The five hyperparameters the specification lists for the network
recipes. -/
inductive Hyper
  | neurons
  | layers
  | batch_size
  | n_epochs
  | dropout
deriving DecidableEq

/-- A Python numeric value as passed to a property setter: the accepts
decorators of src/ANN.py distinguish int from float arguments. -/
inductive PyVal
  | intV (i : Int)
  | floatV (q : ℚ)
deriving DecidableEq

/-- Modelled from the spec: the error raised by the accepts type-checking
decorator of the external utilities module (spec section 9: runtime
decorators enforcing argument types) when a setter receives a value of the
wrong type. -/
def typeErrMsg : String :=
  "TypeError: the accepts decorator rejected an argument of the wrong type"

/-- The shape-mismatch message raised by the MLP_classifier and
MLP_regressor constructors (ANN.py lines 53 and 451). -/
def obsMismatchMsg : String :=
  "The number of observations (Input and Output) does not match: please check again your Input/Output. Exiting..."

/-- The neural-network layers stacked by fit_network, in order. A Dense
layer carries its unit count and activation; a Dropout layer carries its
rate. -/
inductive Layer
  | dense (units : Int) (activation : String)
  | dropoutL (rate : ℚ)
deriving DecidableEq

/-- The external training framework, as consumed by the recipes: the
train/test splitter, the trained network prediction map on a data matrix,
and the trained encoder map of the autoencoder. All three are opaque
external capabilities, so they are parameters of the embedding. -/
structure TrainOracle where
  split : Mat → Mat → Mat × Mat × Mat × Mat
  predict : Mat → Mat
  encode : Mat → Mat

/-- State of an MLP_classifier object: the fields assigned by __init__
(ANN.py lines 39-50). Underscore-prefixed Python fields keep their plain
names here. -/
structure MLP_classifier where
  X : Mat
  Y : Mat
  activation : String
  batch_size : Int
  n_epochs : Int
  n_neurons : Int
  layers : Int
  dropout : ℚ
  save_txt : Bool
deriving DecidableEq

/-- MLP_classifier.__init__ (ANN.py lines 39-54): store the matrices and the
default hyperparameters, then raise when the observation counts of X and Y
differ. -/
def MLP_classifier.init (X Y : Mat) (save : Bool) :
    Except String MLP_classifier :=
  let s : MLP_classifier :=
    { X := X, Y := Y, activation := "relu", batch_size := 64, n_epochs := 1000,
      n_neurons := 2, layers := 1, dropout := 0, save_txt := save }
  if s.X.length ≠ s.Y.length then Except.error obsMismatchMsg
  else Except.ok s

/-- MLP_classifier neurons setter (ANN.py lines 60-67): assign first, then
validate. -/
def MLP_classifier.setNeurons (s : MLP_classifier) (v : Int) :
    PyCall MLP_classifier Unit :=
  let s2 := { s with n_neurons := v }
  if s2.n_neurons ≤ 0 then
    ⟨s2, Except.error "The number of neurons in the hidden layer must be a positive integer. Exiting..", []⟩
  else ⟨s2, Except.ok (), []⟩

/-- MLP_classifier layers setter (ANN.py lines 73-80). -/
def MLP_classifier.setLayers (s : MLP_classifier) (v : Int) :
    PyCall MLP_classifier Unit :=
  let s2 := { s with layers := v }
  if s2.layers ≤ 0 then
    ⟨s2, Except.error "The number hidden layers must be a positive integer. Exiting..", []⟩
  else ⟨s2, Except.ok (), []⟩

/-- MLP_classifier activation setter (ANN.py lines 86-93): the string
leaky_relu is replaced by a LeakyReLU object, modelled by a marker string. -/
def MLP_classifier.setActivation (s : MLP_classifier) (v : String) :
    PyCall MLP_classifier Unit :=
  if v = "leaky_relu" then
    ⟨{ s with activation := "LeakyReLU(alpha=0.0001)" }, Except.ok (), []⟩
  else ⟨{ s with activation := v }, Except.ok (), []⟩

/-- MLP_classifier batch_size setter (ANN.py lines 99-106). -/
def MLP_classifier.setBatchSize (s : MLP_classifier) (v : Int) :
    PyCall MLP_classifier Unit :=
  let s2 := { s with batch_size := v }
  if s2.batch_size ≤ 0 then
    ⟨s2, Except.error "The batch size must be a positive integer. Exiting..", []⟩
  else ⟨s2, Except.ok (), []⟩

/-- MLP_classifier n_epochs setter (ANN.py lines 112-119). -/
def MLP_classifier.setEpochs (s : MLP_classifier) (v : Int) :
    PyCall MLP_classifier Unit :=
  let s2 := { s with n_epochs := v }
  if s2.n_epochs ≤ 0 then
    ⟨s2, Except.error "The number of epochs must be a positive integer. Exiting..", []⟩
  else ⟨s2, Except.ok (), []⟩

/-- MLP_classifier dropout setter (ANN.py lines 125-135): assign first, then
reject values below 0 or at least 1. -/
def MLP_classifier.setDropout (s : MLP_classifier) (v : ℚ) :
    PyCall MLP_classifier Unit :=
  let s2 := { s with dropout := v }
  if s2.dropout < 0 then
    ⟨s2, Except.error "The dropout percentage must be a positive integer. Exiting..", []⟩
  else if 1 ≤ s2.dropout then
    ⟨s2, Except.error "The dropout percentage must be lower than 1. Exiting..", []⟩
  else ⟨s2, Except.ok (), []⟩

/-- Attribute-assignment dispatch for MLP_classifier: the class defines a
validated property for each of the five hyperparameters, so assignment runs
the corresponding setter; a value of the wrong numeric type is rejected by
the accepts decorator (modelled from the spec, section 9). -/
def MLP_classifier.assign (s : MLP_classifier) (h : Hyper) (v : PyVal) :
    PyCall MLP_classifier Unit :=
  match h, v with
  | Hyper.neurons, PyVal.intV i => s.setNeurons i
  | Hyper.layers, PyVal.intV i => s.setLayers i
  | Hyper.batch_size, PyVal.intV i => s.setBatchSize i
  | Hyper.n_epochs, PyVal.intV i => s.setEpochs i
  | Hyper.dropout, PyVal.floatV q => s.setDropout q
  | _, _ => ⟨s, Except.error typeErrMsg, []⟩

/-- MLP_classifier.idx_to_labels (ANN.py lines 156-166) always raises: it
calls np.zeros(n_observations, k), passing the class count k as the dtype
argument of np.zeros, which numpy rejects. -/
def idxToLabelsErr : String :=
  "TypeError: Cannot interpret the class count as a data type"

/-- The plain-text weight and bias dumps written per hidden layer when
save_txt is set (ANN.py lines 260-268), for layer indices 0 .. L-1. -/
def weightDumpEffects : Nat → List Effect
  | 0 => []
  | n + 1 =>
      weightDumpEffects n ++
        [Effect.writeFileE ("Weights_HL" ++ toString n ++ ".txt"),
         Effect.writeFileE ("Biases_HL" ++ toString n ++ ".txt")]

/-- The hidden-layer while loop of MLP_classifier.fit_network (ANN.py lines
222-226): each iteration adds one Dense layer and, only when the dropout
rate is non-zero, one Dropout layer. -/
def classifierHiddenLoop (n : Int) (act : String) (drop : ℚ) :
    Nat → List Layer
  | 0 => []
  | k + 1 =>
      ([Layer.dense n act] ++
        (if drop ≠ 0 then [Layer.dropoutL drop] else [])) ++
      classifierHiddenLoop n act drop k

/-- The layer stack built by MLP_classifier.fit_network (ANN.py lines
216-227): a first hidden Dense layer, an optional Dropout, the while loop
for the remaining layers - 1 hidden layers, and the softmax output layer. -/
def MLP_classifier.buildLayers (s : MLP_classifier) (n_classes : Int) :
    List Layer :=
  ([Layer.dense s.n_neurons s.activation] ++
    (if s.dropout ≠ 0 then [Layer.dropoutL s.dropout] else [])) ++
  classifierHiddenLoop s.n_neurons s.activation s.dropout (s.layers - 1).toNat ++
  [Layer.dense n_classes "softmax"]

/-- MLP_classifier.fit_network (ANN.py lines 200-271). When Y has a single
column the idx_to_labels conversion raises before anything else happens
(only the reformatting notice is printed). Otherwise: set_environment
creates the timestamped directory and changes into it, write_recap_text
writes recap_training.txt there, training runs with early stopping and
checkpointing, the accuracy and loss histories are plotted and saved,
optional per-layer weight dumps are written, and the trained network
predictions on the full input matrix are returned. The wall-clock timestamp
and the external framework are parameters of the embedding. -/
def MLP_classifier.fit_network (s : MLP_classifier) (ts : String)
    (o : TrainOracle) : PyCall MLP_classifier (Option Mat) :=
  if nCols s.Y = 1 then
    ⟨s, Except.error idxToLabelsErr,
      [Effect.printE "Changing idx shape in the correct format: [n x k].."]⟩
  else
    let d := "Train MLP class - " ++ ts
    let _parts := o.split s.X s.Y
    let _stack := s.buildLayers (nCols s.Y : Int)
    let saveEff := if s.save_txt then weightDumpEffects s.layers.toNat else []
    ⟨s, Except.ok (some (o.predict s.X)),
      [Effect.mkdirE d, Effect.chdirE d,
       Effect.writeFileE "recap_training.txt",
       Effect.trainE,
       Effect.savePlotE "accuracy_history.eps", Effect.displayE,
       Effect.savePlotE "loss_history.eps", Effect.displayE] ++ saveEff⟩

/-- State of an Autoencoder object: exactly the attributes assigned by
__init__ (ANN.py lines 275-281), which stores X and four hyperparameter
defaults but never stores the save argument. save_txt is therefore an
optional attribute, none until something assigns it; layers and dropout
have no property on the class, so assigning them creates plain instance
attributes recorded separately. -/
structure Autoencoder where
  X : Mat
  n_neurons : Int
  activation : String
  batch_size : Int
  n_epochs : Int
  save_txt : Option Bool
  layersAttr : Option PyVal
  dropoutAttr : Option PyVal
deriving DecidableEq

/-- Autoencoder.__init__ (ANN.py lines 275-281): the save parameter is
accepted but ignored; self.save_txt is never assigned. -/
def Autoencoder.init (X : Mat) (_save : Bool) : Autoencoder :=
  { X := X, n_neurons := 1, activation := "relu", batch_size := 64,
    n_epochs := 1000, save_txt := none, layersAttr := none,
    dropoutAttr := none }

/-- Plain Python attribute assignment of save_txt on an Autoencoder
instance (no property of that name exists on the class, so the assignment
just stores the value). -/
def Autoencoder.setSaveAttr (s : Autoencoder) (b : Bool) : Autoencoder :=
  { s with save_txt := some b }

/-- Autoencoder neurons setter (ANN.py lines 287-297): assign first, then
reject non-positive values and values at least the number of input
variables. -/
def Autoencoder.setNeurons (s : Autoencoder) (v : Int) :
    PyCall Autoencoder Unit :=
  let s2 := { s with n_neurons := v }
  if s2.n_neurons ≤ 0 then
    ⟨s2, Except.error "The number of neurons in the hidden layer must be a positive integer. Exiting..", []⟩
  else if (nCols s2.X : Int) ≤ s2.n_neurons then
    ⟨s2, Except.error "The reduced dimensionality cannot be larger than the original number of variables. Exiting..", []⟩
  else ⟨s2, Except.ok (), []⟩

/-- Autoencoder activation setter (ANN.py lines 303-310). -/
def Autoencoder.setActivation (s : Autoencoder) (v : String) :
    PyCall Autoencoder Unit :=
  if v = "leaky_relu" then
    ⟨{ s with activation := "LeakyReLU(alpha=0.0001)" }, Except.ok (), []⟩
  else ⟨{ s with activation := v }, Except.ok (), []⟩

/-- Autoencoder batch_size setter (ANN.py lines 316-323): assign first,
then validate. -/
def Autoencoder.setBatchSize (s : Autoencoder) (v : Int) :
    PyCall Autoencoder Unit :=
  let s2 := { s with batch_size := v }
  if s2.batch_size ≤ 0 then
    ⟨s2, Except.error "The batch size must be a positive integer. Exiting..", []⟩
  else ⟨s2, Except.ok (), []⟩

/-- Autoencoder n_epochs setter (ANN.py lines 329-336). -/
def Autoencoder.setEpochs (s : Autoencoder) (v : Int) :
    PyCall Autoencoder Unit :=
  let s2 := { s with n_epochs := v }
  if s2.n_epochs ≤ 0 then
    ⟨s2, Except.error "The number of epochs must be a positive integer. Exiting..", []⟩
  else ⟨s2, Except.ok (), []⟩

/-- Attribute-assignment dispatch for Autoencoder. The class body (ANN.py
lines 283-336) defines properties only for neurons, activation, batch_size
and n_epochs; by the Python data model, assigning layers or dropout on an
Autoencoder instance finds no property descriptor and silently creates a
plain instance attribute, running no validation at all. -/
def Autoencoder.assign (s : Autoencoder) (h : Hyper) (v : PyVal) :
    PyCall Autoencoder Unit :=
  match h, v with
  | Hyper.neurons, PyVal.intV i => s.setNeurons i
  | Hyper.batch_size, PyVal.intV i => s.setBatchSize i
  | Hyper.n_epochs, PyVal.intV i => s.setEpochs i
  | Hyper.neurons, PyVal.floatV _ => ⟨s, Except.error typeErrMsg, []⟩
  | Hyper.batch_size, PyVal.floatV _ => ⟨s, Except.error typeErrMsg, []⟩
  | Hyper.n_epochs, PyVal.floatV _ => ⟨s, Except.error typeErrMsg, []⟩
  | Hyper.layers, _ => ⟨{ s with layersAttr := some v }, Except.ok (), []⟩
  | Hyper.dropout, _ => ⟨{ s with dropoutAttr := some v }, Except.ok (), []⟩

/-- The message of the AttributeError raised when Autoencoder.fit reads the
never-assigned self.save_txt attribute (ANN.py line 426). -/
def aeAttrErr : String :=
  "AttributeError: Autoencoder object has no attribute save_txt"

/-- Autoencoder.fit (ANN.py lines 387-433): set_environment creates the
timestamped directory and changes into it, write_recap_text writes
recap_training.txt, the two-layer autoencoder is trained with early
stopping, the loss history is plotted and saved, the encoder is applied to
the full input matrix, and then self.save_txt is read: when the attribute
was never assigned this raises an AttributeError; when it is present and
true the weight, bias and encoded-matrix text files are written. The method
body contains no return statement, so a completed call returns None. -/
def Autoencoder.fit (s : Autoencoder) (ts : String) (o : TrainOracle) :
    PyCall Autoencoder (Option Mat) :=
  let d := "Train Autoencoder - " ++ ts
  let pre : List Effect :=
    [Effect.mkdirE d, Effect.chdirE d,
     Effect.writeFileE "recap_training.txt",
     Effect.trainE,
     Effect.savePlotE "loss_history.eps", Effect.displayE]
  let _encoded := o.encode s.X
  match s.save_txt with
  | none => ⟨s, Except.error aeAttrErr, pre⟩
  | some true =>
      ⟨s, Except.ok none,
        pre ++ [Effect.writeFileE "AEweightsHL1.txt",
                Effect.writeFileE "AEbiasHL1.txt",
                Effect.writeFileE "Encoded_matrix.txt"]⟩
  | some false => ⟨s, Except.ok none, pre⟩

/-- State of an MLP_regressor object: the fields assigned by __init__
(ANN.py lines 437-448). -/
structure MLP_regressor where
  X : Mat
  Y : Mat
  n_neurons : Int
  layers : Int
  activation : String
  batch_size : Int
  n_epochs : Int
  dropout : ℚ
  save_txt : Bool
deriving DecidableEq

/-- MLP_regressor.__init__ (ANN.py lines 437-452): store the matrices and
defaults, then raise when the observation counts of X and Y differ. -/
def MLP_regressor.init (X Y : Mat) (save : Bool) :
    Except String MLP_regressor :=
  let s : MLP_regressor :=
    { X := X, Y := Y, n_neurons := 2, layers := 1, activation := "relu",
      batch_size := 64, n_epochs := 1000, dropout := 0, save_txt := save }
  if s.X.length ≠ s.Y.length then Except.error obsMismatchMsg
  else Except.ok s

/-- MLP_regressor neurons setter (ANN.py lines 459-466). -/
def MLP_regressor.setNeurons (s : MLP_regressor) (v : Int) :
    PyCall MLP_regressor Unit :=
  let s2 := { s with n_neurons := v }
  if s2.n_neurons ≤ 0 then
    ⟨s2, Except.error "The number of neurons in the hidden layer must be a positive integer. Exiting..", []⟩
  else ⟨s2, Except.ok (), []⟩

/-- MLP_regressor layers setter (ANN.py lines 472-479). -/
def MLP_regressor.setLayers (s : MLP_regressor) (v : Int) :
    PyCall MLP_regressor Unit :=
  let s2 := { s with layers := v }
  if s2.layers ≤ 0 then
    ⟨s2, Except.error "The number hidden layers must be a positive integer. Exiting..", []⟩
  else ⟨s2, Except.ok (), []⟩

/-- MLP_regressor activation setter (ANN.py lines 485-492). -/
def MLP_regressor.setActivation (s : MLP_regressor) (v : String) :
    PyCall MLP_regressor Unit :=
  if v = "leaky_relu" then
    ⟨{ s with activation := "LeakyReLU(alpha=0.0001)" }, Except.ok (), []⟩
  else ⟨{ s with activation := v }, Except.ok (), []⟩

/-- MLP_regressor batch_size setter (ANN.py lines 499-506). -/
def MLP_regressor.setBatchSize (s : MLP_regressor) (v : Int) :
    PyCall MLP_regressor Unit :=
  let s2 := { s with batch_size := v }
  if s2.batch_size ≤ 0 then
    ⟨s2, Except.error "The batch size must be a positive integer. Exiting..", []⟩
  else ⟨s2, Except.ok (), []⟩

/-- MLP_regressor n_epochs setter (ANN.py lines 512-519). -/
def MLP_regressor.setEpochs (s : MLP_regressor) (v : Int) :
    PyCall MLP_regressor Unit :=
  let s2 := { s with n_epochs := v }
  if s2.n_epochs ≤ 0 then
    ⟨s2, Except.error "The number of epochs must be a positive integer. Exiting..", []⟩
  else ⟨s2, Except.ok (), []⟩

/-- MLP_regressor dropout setter (ANN.py lines 525-535): assign first, then
reject values below 0 or at least 1. -/
def MLP_regressor.setDropout (s : MLP_regressor) (v : ℚ) :
    PyCall MLP_regressor Unit :=
  let s2 := { s with dropout := v }
  if s2.dropout < 0 then
    ⟨s2, Except.error "The dropout percentage must be a positive integer. Exiting..", []⟩
  else if 1 ≤ s2.dropout then
    ⟨s2, Except.error "The dropout percentage must be lower than 1. Exiting..", []⟩
  else ⟨s2, Except.ok (), []⟩

/-- Attribute-assignment dispatch for MLP_regressor: all five
hyperparameters have validated properties (ANN.py lines 455-535). -/
def MLP_regressor.assign (s : MLP_regressor) (h : Hyper) (v : PyVal) :
    PyCall MLP_regressor Unit :=
  match h, v with
  | Hyper.neurons, PyVal.intV i => s.setNeurons i
  | Hyper.layers, PyVal.intV i => s.setLayers i
  | Hyper.batch_size, PyVal.intV i => s.setBatchSize i
  | Hyper.n_epochs, PyVal.intV i => s.setEpochs i
  | Hyper.dropout, PyVal.floatV q => s.setDropout q
  | _, _ => ⟨s, Except.error typeErrMsg, []⟩

/-- The hidden-layer while loop of MLP_regressor.fit_network (ANN.py lines
605-608): each iteration adds one Dense layer and then, unlike the
classifier loop, adds a Dropout layer unconditionally (line 607 has no
guard on the dropout rate). -/
def regressorHiddenLoop (n : Int) (act : String) (drop : ℚ) :
    Nat → List Layer
  | 0 => []
  | k + 1 =>
      [Layer.dense n act, Layer.dropoutL drop] ++
      regressorHiddenLoop n act drop k

/-- The layer stack built by MLP_regressor.fit_network (ANN.py lines
599-609): a first hidden Dense layer, an optional Dropout (guarded at line
601), the while loop for the remaining layers - 1 hidden layers with its
unconditional Dropout, and the linear output layer. -/
def MLP_regressor.buildLayers (s : MLP_regressor) (out_dim : Int) :
    List Layer :=
  ([Layer.dense s.n_neurons s.activation] ++
    (if s.dropout ≠ 0 then [Layer.dropoutL s.dropout] else [])) ++
  regressorHiddenLoop s.n_neurons s.activation s.dropout (s.layers - 1).toNat ++
  [Layer.dense out_dim "linear"]

/-- The NameError raised by the weight-saving loop of
MLP_regressor.fit_network, whose body refers to the undefined name
classifier (ANN.py line 635). -/
def regressorNameErr : String := "NameError: name classifier is not defined"

/-- MLP_regressor.fit_network (ANN.py lines 586-644): set_environment
creates the timestamped directory and changes into it, write_recap_text
writes recap_training.txt, training runs with early stopping and
checkpointing, the loss history is plotted and saved, the best weights are
reloaded and the trained network predictions on the full input matrix are
computed. When save_txt is set and at least one loop iteration runs, the
weight-saving loop raises a NameError (it refers to the undefined name
classifier); otherwise the predictions are returned. -/
def MLP_regressor.fit_network (s : MLP_regressor) (ts : String)
    (o : TrainOracle) : PyCall MLP_regressor (Option Mat) :=
  let d := "Train MLP regressor - " ++ ts
  let _parts := o.split s.X s.Y
  let _stack := s.buildLayers (nCols s.Y : Int)
  let pre : List Effect :=
    [Effect.mkdirE d, Effect.chdirE d,
     Effect.writeFileE "recap_training.txt",
     Effect.trainE,
     Effect.savePlotE "loss_history.eps", Effect.displayE,
     Effect.loadWeightsE "best_weights2c.h5"]
  let test := o.predict s.X
  if s.save_txt ∧ 0 < s.layers then
    ⟨s, Except.error regressorNameErr, pre⟩
  else ⟨s, Except.ok (some test), pre⟩

/-- Decidable equality for call results, used to evaluate the embedding on
concrete inputs. -/
def exceptDecEq {eps alpha : Type} [DecidableEq eps] [DecidableEq alpha] :
    DecidableEq (Except eps alpha) := fun x y =>
  match x, y with
  | Except.ok a, Except.ok b =>
      if h : a = b then isTrue (by rw [h])
      else isFalse (fun hc => h (Except.ok.inj hc))
  | Except.error e, Except.error f =>
      if h : e = f then isTrue (by rw [h])
      else isFalse (fun hc => h (Except.error.inj hc))
  | Except.ok _, Except.error _ => isFalse (fun hc => Except.noConfusion hc)
  | Except.error _, Except.ok _ => isFalse (fun hc => Except.noConfusion hc)

instance {eps alpha : Type} [DecidableEq eps] [DecidableEq alpha] :
    DecidableEq (Except eps alpha) := exceptDecEq

/-- A concrete kernel function used to evaluate the kernel-approximation
embedding on concrete inputs. -/
def kDot : List ℚ → List ℚ → ℚ := fun a b => dot a b

/-- A concrete well-configured model: two rows, one landmark per draw. -/
def mdlGood : Kernel_approximation := ⟨[[0], [1]], ⟨1, 1, 1, 1⟩⟩

/-- The reference misconfiguration: number_to_pick exceeds the row count. -/
def mdlBad : Kernel_approximation := ⟨[[0], [0]], ⟨3, 1, 30, 10⟩⟩

/-- A misconfiguration with non-positive sigma and rank that the component
accepts silently. -/
def mdlNoSigma : Kernel_approximation := ⟨[[0], [0]], ⟨1, -1, 0, 10⟩⟩

/-- A concrete external-framework stand-in used to evaluate the recipes on
concrete inputs. -/
def oracleId : TrainOracle := ⟨fun X Y => (X, X, Y, Y), fun X => X, fun X => X⟩

/-- A concrete classifier state (two-column target, so fit_network takes
its normal path). -/
def cWitState : MLP_classifier :=
  ⟨[[1]], [[1, 0]], "relu", 64, 1000, 2, 1, 0, false⟩

/-- A concrete autoencoder state fresh from the constructor. -/
def aWitState : Autoencoder := Autoencoder.init [[1, 2, 3]] false

/-- A concrete regressor state with save_txt off, so fit_network completes. -/
def rWitState : MLP_regressor := ⟨[[1]], [[1]], 2, 1, "relu", 64, 1000, 0, false⟩

/-- C1 counterexample: on an Autoencoder, assigning dropout = -1/2 (outside
[0,1)) and layers = 0 raises nothing at all: the class defines no dropout or
layers property, so the assignments succeed as plain attribute writes. -/
theorem C1_counterexample :
    ((Autoencoder.init [[1, 2]] false).assign Hyper.dropout
        (PyVal.floatV (-1/2))).result = Except.ok () ∧
    ((Autoencoder.init [[1, 2]] false).assign Hyper.layers
        (PyVal.intV 0)).result = Except.ok () := ⟨rfl, rfl⟩

/-- C1 (amended): for MLP_classifier and MLP_regressor every one of the five
hyperparameter setters rejects an invalid value (neurons, layers,
batch_size, n_epochs non-positive; dropout outside [0,1)) by raising
synchronously with no side effects, so no training starts and no output
directory is created; the Autoencoder validates in the same way through the
three setters it defines (neurons, batch_size, n_epochs), while assignments
to layers or dropout on an Autoencoder are unvalidated plain attribute
writes that raise nothing. -/
theorem C1_amended_setter_validation
    (sC : MLP_classifier) (sA : Autoencoder) (sR : MLP_regressor)
    (nv lv bv ev : Int) (dv : ℚ)
    (hn : nv ≤ 0) (hl : lv ≤ 0) (hb : bv ≤ 0) (he : ev ≤ 0)
    (hd : dv < 0 ∨ 1 ≤ dv) :
    ((sC.setNeurons nv).raised = true ∧ (sC.setNeurons nv).effects = []) ∧
    ((sC.setLayers lv).raised = true ∧ (sC.setLayers lv).effects = []) ∧
    ((sC.setBatchSize bv).raised = true ∧ (sC.setBatchSize bv).effects = []) ∧
    ((sC.setEpochs ev).raised = true ∧ (sC.setEpochs ev).effects = []) ∧
    ((sC.setDropout dv).raised = true ∧ (sC.setDropout dv).effects = []) ∧
    ((sA.setNeurons nv).raised = true ∧ (sA.setNeurons nv).effects = []) ∧
    ((sA.setBatchSize bv).raised = true ∧ (sA.setBatchSize bv).effects = []) ∧
    ((sA.setEpochs ev).raised = true ∧ (sA.setEpochs ev).effects = []) ∧
    ((sR.setNeurons nv).raised = true ∧ (sR.setNeurons nv).effects = []) ∧
    ((sR.setLayers lv).raised = true ∧ (sR.setLayers lv).effects = []) ∧
    ((sR.setBatchSize bv).raised = true ∧ (sR.setBatchSize bv).effects = []) ∧
    ((sR.setEpochs ev).raised = true ∧ (sR.setEpochs ev).effects = []) ∧
    ((sR.setDropout dv).raised = true ∧ (sR.setDropout dv).effects = []) ∧
    ((sA.assign Hyper.layers (PyVal.intV lv)).raised = false ∧
      (sA.assign Hyper.dropout (PyVal.floatV dv)).raised = false) := by
  have dropC : (sC.setDropout dv).raised = true := by
    simp only [MLP_classifier.setDropout]
    rcases hd with hd | hd
    · rw [if_pos hd]; rfl
    · rw [if_neg (not_lt.mpr (by linarith)), if_pos hd]; rfl
  have dropR : (sR.setDropout dv).raised = true := by
    simp only [MLP_regressor.setDropout]
    rcases hd with hd | hd
    · rw [if_pos hd]; rfl
    · rw [if_neg (not_lt.mpr (by linarith)), if_pos hd]; rfl
  refine ⟨⟨?_, ?_⟩, ⟨?_, ?_⟩, ⟨?_, ?_⟩, ⟨?_, ?_⟩, ⟨dropC, ?_⟩,
    ⟨?_, ?_⟩, ⟨?_, ?_⟩, ⟨?_, ?_⟩,
    ⟨?_, ?_⟩, ⟨?_, ?_⟩, ⟨?_, ?_⟩, ⟨?_, ?_⟩, ⟨dropR, ?_⟩, rfl, rfl⟩
  · simp only [MLP_classifier.setNeurons]; rw [if_pos hn]; rfl
  · simp only [MLP_classifier.setNeurons]; split <;> rfl
  · simp only [MLP_classifier.setLayers]; rw [if_pos hl]; rfl
  · simp only [MLP_classifier.setLayers]; split <;> rfl
  · simp only [MLP_classifier.setBatchSize]; rw [if_pos hb]; rfl
  · simp only [MLP_classifier.setBatchSize]; split <;> rfl
  · simp only [MLP_classifier.setEpochs]; rw [if_pos he]; rfl
  · simp only [MLP_classifier.setEpochs]; split <;> rfl
  · simp only [MLP_classifier.setDropout]; split <;> first | rfl | (split <;> rfl)
  · simp only [Autoencoder.setNeurons]; rw [if_pos hn]; rfl
  · simp only [Autoencoder.setNeurons]; split <;> first | rfl | (split <;> rfl)
  · simp only [Autoencoder.setBatchSize]; rw [if_pos hb]; rfl
  · simp only [Autoencoder.setBatchSize]; split <;> rfl
  · simp only [Autoencoder.setEpochs]; rw [if_pos he]; rfl
  · simp only [Autoencoder.setEpochs]; split <;> rfl
  · simp only [MLP_regressor.setNeurons]; rw [if_pos hn]; rfl
  · simp only [MLP_regressor.setNeurons]; split <;> rfl
  · simp only [MLP_regressor.setLayers]; rw [if_pos hl]; rfl
  · simp only [MLP_regressor.setLayers]; split <;> rfl
  · simp only [MLP_regressor.setBatchSize]; rw [if_pos hb]; rfl
  · simp only [MLP_regressor.setBatchSize]; split <;> rfl
  · simp only [MLP_regressor.setEpochs]; rw [if_pos he]; rfl
  · simp only [MLP_regressor.setEpochs]; split <;> rfl
  · simp only [MLP_regressor.setDropout]; split <;> first | rfl | (split <;> rfl)

/-- C1 witness: the amended validation theorem evaluated at concrete states
and the concrete invalid values 0, 0, 0, 0 and -1/2. -/
theorem C1_amended_setter_validation_witness :
    ((0 : Int) ≤ 0 ∧ ((-1/2 : ℚ) < 0 ∨ 1 ≤ (-1/2 : ℚ))) ∧
    (((cWitState.setNeurons 0).raised = true ∧ (cWitState.setNeurons 0).effects = []) ∧
     ((cWitState.setLayers 0).raised = true ∧ (cWitState.setLayers 0).effects = []) ∧
     ((cWitState.setBatchSize 0).raised = true ∧ (cWitState.setBatchSize 0).effects = []) ∧
     ((cWitState.setEpochs 0).raised = true ∧ (cWitState.setEpochs 0).effects = []) ∧
     ((cWitState.setDropout (-1/2)).raised = true ∧ (cWitState.setDropout (-1/2)).effects = []) ∧
     ((aWitState.setNeurons 0).raised = true ∧ (aWitState.setNeurons 0).effects = []) ∧
     ((aWitState.setBatchSize 0).raised = true ∧ (aWitState.setBatchSize 0).effects = []) ∧
     ((aWitState.setEpochs 0).raised = true ∧ (aWitState.setEpochs 0).effects = []) ∧
     ((rWitState.setNeurons 0).raised = true ∧ (rWitState.setNeurons 0).effects = []) ∧
     ((rWitState.setLayers 0).raised = true ∧ (rWitState.setLayers 0).effects = []) ∧
     ((rWitState.setBatchSize 0).raised = true ∧ (rWitState.setBatchSize 0).effects = []) ∧
     ((rWitState.setEpochs 0).raised = true ∧ (rWitState.setEpochs 0).effects = []) ∧
     ((rWitState.setDropout (-1/2)).raised = true ∧ (rWitState.setDropout (-1/2)).effects = []) ∧
     ((aWitState.assign Hyper.layers (PyVal.intV 0)).raised = false ∧
       (aWitState.assign Hyper.dropout (PyVal.floatV (-1/2))).raised = false)) :=
  ⟨⟨le_refl 0, Or.inl (by norm_num)⟩,
    C1_amended_setter_validation cWitState aWitState rWitState 0 0 0 0 (-1/2)
      (le_refl 0) (le_refl 0) (le_refl 0) (le_refl 0) (Or.inl (by norm_num))⟩

/-- C2: evaluating the kernel-approximation operations at the failing
configurations. With number_to_pick = 3 on a 2-row matrix all three
operations fail with an index-out-of-range error raised while fetching
landmarks, not with a configuration error raised beforehand; and with a
non-positive sigma and rank the standard operation happily returns a
result, so no fail-fast validation exists at all. -/
theorem C2_missing_validation_eval :
    (Nystrom_standard kDot mdlBad 0 [[1]]).1 = Except.error landmarkIndexErr ∧
    (Nystrom_ensemble kDot mdlBad [(0, [[1]])]).1 = Except.error landmarkIndexErr ∧
    (QRdecomposition kDot mdlBad 0 [[1], [1]]).1 = Except.error landmarkIndexErr ∧
    (Nystrom_standard kDot mdlNoSigma 0 [[1]]).1 = Except.ok [[0, 0], [0, 0]] := by
  refine ⟨rfl, rfl, rfl, ?_⟩
  norm_num [Nystrom_standard, fetchLandmarks, fetchRows, drawIndices, quadForm, kDot, dot,
    mdlNoSigma]

/-- C3: each of the three operations, whenever it returns a matrix, returns
a dense n-by-n matrix (n the number of rows of the stored input matrix),
and the model object — in particular its stored data matrix — is unchanged
by the call. The reference 2000-row scenario is the instance n = 2000. -/
theorem C3_square_result_no_mutation (k : List ℚ → List ℚ → ℚ)
    (mdl : Kernel_approximation) (s1 : Nat) (pinvW : Mat)
    (draws : List (Nat × Mat)) (s2 : Nat) (Q : Mat) :
    (∀ K, (Nystrom_standard k mdl s1 pinvW).1 = Except.ok K →
        isSquareOf K (nRows mdl.X)) ∧
    (Nystrom_standard k mdl s1 pinvW).2 = mdl ∧
    (∀ K, (Nystrom_ensemble k mdl draws).1 = Except.ok K →
        isSquareOf K (nRows mdl.X)) ∧
    (Nystrom_ensemble k mdl draws).2 = mdl ∧
    (∀ K, (QRdecomposition k mdl s2 Q).1 = Except.ok K →
        isSquareOf K (nRows mdl.X)) ∧
    (QRdecomposition k mdl s2 Q).2 = mdl := by
  have sqMap : ∀ (f : List ℚ → List ℚ → ℚ),
      isSquareOf (mdl.X.map (fun xi => mdl.X.map (fun xj => f xi xj)))
        (nRows mdl.X) := by
    intro f
    constructor
    · simp [nRows]
    · intro r hr
      simp only [List.mem_map] at hr
      obtain ⟨xi, _, rfl⟩ := hr
      simp [nRows]
  have sqRange : ∀ (g : Nat → Nat → ℚ),
      isSquareOf ((List.range (nRows mdl.X)).map (fun i =>
        (List.range (nRows mdl.X)).map (fun j => g i j))) (nRows mdl.X) := by
    intro g
    constructor
    · simp
    · intro r hr
      simp only [List.mem_map] at hr
      obtain ⟨i, _, rfl⟩ := hr
      simp
  refine ⟨?_, ?_, ?_, ?_, ?_, ?_⟩
  · intro K hK
    unfold Nystrom_standard at hK
    cases hfetch : fetchLandmarks mdl.X s1 mdl.settings.number_to_pick with
    | none => rw [hfetch] at hK; exact Except.noConfusion hK
    | some lands =>
        rw [hfetch] at hK
        exact (Except.ok.inj hK) ▸ sqMap _
  · unfold Nystrom_standard
    cases fetchLandmarks mdl.X s1 mdl.settings.number_to_pick <;> rfl
  · intro K hK
    unfold Nystrom_ensemble at hK
    split at hK
    · exact (Except.ok.inj hK) ▸ sqMap _
    · exact Except.noConfusion hK
  · unfold Nystrom_ensemble
    split <;> rfl
  · intro K hK
    unfold QRdecomposition at hK
    cases hfetch : fetchLandmarks mdl.X s2 mdl.settings.number_to_pick with
    | none => rw [hfetch] at hK; exact Except.noConfusion hK
    | some lands =>
        rw [hfetch] at hK
        exact (Except.ok.inj hK) ▸ sqRange _
  · unfold QRdecomposition
    cases fetchLandmarks mdl.X s2 mdl.settings.number_to_pick <;> rfl

/-- C3 witness: the shape and no-mutation theorem evaluated at a concrete
two-row model for all three operations. -/
theorem C3_square_result_no_mutation_witness :
    ((Nystrom_standard kDot mdlGood 0 [[1]]).1 = Except.ok [[0, 0], [0, 0]] ∧
      isSquareOf [[0, 0], [0, 0]] 2) ∧
    (Nystrom_standard kDot mdlGood 0 [[1]]).2 = mdlGood ∧
    ((Nystrom_ensemble kDot mdlGood [(0, [[1]])]).1 = Except.ok [[0, 0], [0, 0]] ∧
      isSquareOf [[0, 0], [0, 0]] 2) ∧
    (Nystrom_ensemble kDot mdlGood [(0, [[1]])]).2 = mdlGood ∧
    ((QRdecomposition kDot mdlGood 0 [[1], [2]]).1 = Except.ok [[1, 2], [2, 4]] ∧
      isSquareOf [[1, 2], [2, 4]] 2) ∧
    (QRdecomposition kDot mdlGood 0 [[1], [2]]).2 = mdlGood := by
  have hstd : (Nystrom_standard kDot mdlGood 0 [[1]]).1 = Except.ok [[0, 0], [0, 0]] := by
    norm_num [Nystrom_standard, fetchLandmarks, fetchRows, drawIndices, quadForm, kDot, dot,
      mdlGood]
  have hens : (Nystrom_ensemble kDot mdlGood [(0, [[1]])]).1 = Except.ok [[0, 0], [0, 0]] := by
    norm_num [Nystrom_ensemble, ensembleEntry, fetchLandmarks, fetchRows, drawIndices,
      quadForm, kDot, dot, mdlGood]
  have hqr : (QRdecomposition kDot mdlGood 0 [[1], [2]]).1 = Except.ok [[1, 2], [2, 4]] := by
    norm_num [QRdecomposition, fetchLandmarks, fetchRows, drawIndices, kDot, dot, mdlGood,
      nRows, List.range_succ]
  exact ⟨⟨hstd, (C3_square_result_no_mutation kDot mdlGood 0 [[1]] [(0, [[1]])] 0
      [[1], [2]]).1 [[0, 0], [0, 0]] hstd⟩,
   (C3_square_result_no_mutation kDot mdlGood 0 [[1]] [(0, [[1]])] 0
      [[1], [2]]).2.1,
   ⟨hens, (C3_square_result_no_mutation kDot mdlGood 0 [[1]] [(0, [[1]])] 0
      [[1], [2]]).2.2.1 [[0, 0], [0, 0]] hens⟩,
   (C3_square_result_no_mutation kDot mdlGood 0 [[1]] [(0, [[1]])] 0
      [[1], [2]]).2.2.2.1,
   ⟨hqr, (C3_square_result_no_mutation kDot mdlGood 0 [[1]] [(0, [[1]])] 0
      [[1], [2]]).2.2.2.2.1 [[1, 2], [2, 4]] hqr⟩,
   (C3_square_result_no_mutation kDot mdlGood 0 [[1]] [(0, [[1]])] 0
      [[1], [2]]).2.2.2.2.2⟩

/-- One ensemble entry is invariant under a permutation of the draws: the
sum of the per-draw reconstruction entries and the draw count both are. -/
theorem ensembleEntry_perm (k : List ℚ → List ℚ → ℚ) (X : Mat) (m : Int)
    (d1 d2 : List (Nat × Mat)) (xi xj : List ℚ) (h : d1.Perm d2) :
    ensembleEntry k X m d1 xi xj = ensembleEntry k X m d2 xi xj := by
  unfold ensembleEntry
  rw [List.Perm.sum_eq (h.map _), h.length_eq]

/-- C4: the ensemble Nystrom result is invariant to the order in which the
independent landmark draws are combined, the combination being a simple
mean: permuting the list of draws leaves the operation result (and the
error behaviour) unchanged. -/
theorem C4_ensemble_order_invariant (k : List ℚ → List ℚ → ℚ)
    (mdl : Kernel_approximation) (d1 d2 : List (Nat × Mat))
    (h : d1.Perm d2) :
    Nystrom_ensemble k mdl d1 = Nystrom_ensemble k mdl d2 := by
  unfold Nystrom_ensemble
  have hc : (∀ d ∈ d1,
        (fetchLandmarks mdl.X d.1 mdl.settings.number_to_pick).isSome = true) ↔
      (∀ d ∈ d2,
        (fetchLandmarks mdl.X d.1 mdl.settings.number_to_pick).isSome = true) := by
    constructor <;> intro hh x hx
    · exact hh x (h.mem_iff.mpr hx)
    · exact hh x (h.mem_iff.mp hx)
  have hfun : (fun xi => mdl.X.map (fun xj =>
        ensembleEntry k mdl.X mdl.settings.number_to_pick d1 xi xj)) =
      (fun xi => mdl.X.map (fun xj =>
        ensembleEntry k mdl.X mdl.settings.number_to_pick d2 xi xj)) := by
    funext xi
    have hinner : (fun xj =>
          ensembleEntry k mdl.X mdl.settings.number_to_pick d1 xi xj) =
        (fun xj =>
          ensembleEntry k mdl.X mdl.settings.number_to_pick d2 xi xj) := by
      funext xj
      exact ensembleEntry_perm k mdl.X mdl.settings.number_to_pick d1 d2 xi xj h
    rw [hinner]
  exact if_congr hc (by rw [hfun]) rfl

/-- A concrete pair of draws for the order-invariance witness. -/
def drawsA : List (Nat × Mat) := [(0, [[1]]), (1, [[2]])]

/-- The same draws combined in the opposite order. -/
def drawsB : List (Nat × Mat) := [(1, [[2]]), (0, [[1]])]

/-- C4 witness: the order-invariance theorem evaluated at two concrete
draws swapped. -/
theorem C4_ensemble_order_invariant_witness :
    drawsA.Perm drawsB ∧
    Nystrom_ensemble kDot mdlGood drawsA = Nystrom_ensemble kDot mdlGood drawsB :=
  ⟨List.Perm.swap (1, [[2]]) (0, [[1]]) [],
    C4_ensemble_order_invariant kDot mdlGood drawsA drawsB
      (List.Perm.swap (1, [[2]]) (0, [[1]]) [])⟩

/-- A completed Autoencoder run: the instance got its save_txt attribute by
a plain assignment after construction, so fit completes. -/
def aeDone : Autoencoder := (Autoencoder.init [[1, 2]] true).setSaveAttr false

/-- C5 counterexample: an Autoencoder whose fit call completes returns None
(the method body has no return statement), not the predictions on the full
input matrix. -/
theorem C5_counterexample :
    (aeDone.fit "2020_01_01-0000" oracleId).result = Except.ok none ∧
    (aeDone.fit "2020_01_01-0000" oracleId).result ≠
      Except.ok (some (oracleId.predict aeDone.X)) := by
  refine ⟨rfl, ?_⟩
  intro hcon
  rw [show (aeDone.fit "2020_01_01-0000" oracleId).result = Except.ok none
    from rfl] at hcon
  exact Option.noConfusion (Except.ok.inj hcon)

/-- C5 (amended): whenever MLP_classifier.fit_network or
MLP_regressor.fit_network completes, it returns the trained network
predictions on the full input matrix X; whenever Autoencoder.fit completes,
it returns None (its body computes the encoded matrix but never returns
it). -/
theorem C5_amended_fit_returns (sC : MLP_classifier) (sR : MLP_regressor)
    (sA : Autoencoder) (ts : String) (o : TrainOracle) :
    (∀ r, (sC.fit_network ts o).result = Except.ok r →
        r = some (o.predict sC.X)) ∧
    (∀ r, (sR.fit_network ts o).result = Except.ok r →
        r = some (o.predict sR.X)) ∧
    (∀ r, (sA.fit ts o).result = Except.ok r → r = none) := by
  refine ⟨?_, ?_, ?_⟩
  · intro r hr
    unfold MLP_classifier.fit_network at hr
    split at hr
    · exact Except.noConfusion hr
    · exact (Except.ok.inj hr).symm
  · intro r hr
    unfold MLP_regressor.fit_network at hr
    split at hr
    · exact Except.noConfusion hr
    · exact (Except.ok.inj hr).symm
  · intro r hr
    unfold Autoencoder.fit at hr
    cases hsv : sA.save_txt with
    | none => rw [hsv] at hr; exact Except.noConfusion hr
    | some b =>
        rw [hsv] at hr
        cases b <;> exact (Except.ok.inj hr).symm

/-- An Autoencoder that will complete fit with the save branch taken. -/
def aWitState2 : Autoencoder := (Autoencoder.init [[1, 2]] false).setSaveAttr true

/-- C5 witness: the amended return-value theorem evaluated at concrete
states whose fit calls complete. -/
theorem C5_amended_fit_returns_witness :
    ((cWitState.fit_network "t" oracleId).result = Except.ok (some [[1]]) ∧
      (some [[1]] : Option Mat) = some (oracleId.predict cWitState.X)) ∧
    ((rWitState.fit_network "t" oracleId).result = Except.ok (some [[1]]) ∧
      (some [[1]] : Option Mat) = some (oracleId.predict rWitState.X)) ∧
    ((aWitState2.fit "t" oracleId).result = Except.ok none ∧
      (none : Option Mat) = none) :=
  ⟨⟨rfl, (C5_amended_fit_returns cWitState rWitState aWitState2 "t"
      oracleId).1 (some [[1]]) rfl⟩,
   ⟨rfl, (C5_amended_fit_returns cWitState rWitState aWitState2 "t"
      oracleId).2.1 (some [[1]]) rfl⟩,
   ⟨rfl, (C5_amended_fit_returns cWitState rWitState aWitState2 "t"
      oracleId).2.2 none rfl⟩⟩

/-- C6: constructing an MLP_classifier or MLP_regressor from matrices whose
observation counts differ raises the shape-mismatch exception at
construction time, so no object exists and no training can start. -/
theorem C6_shape_mismatch_raises (X Y : Mat) (save : Bool)
    (h : X.length ≠ Y.length) :
    MLP_classifier.init X Y save = Except.error obsMismatchMsg ∧
    MLP_regressor.init X Y save = Except.error obsMismatchMsg := by
  constructor
  · simp only [MLP_classifier.init]
    rw [if_pos h]
  · simp only [MLP_regressor.init]
    rw [if_pos h]

/-- C6 witness: the shape-mismatch theorem evaluated at a one-row input
matrix and an empty target matrix. -/
theorem C6_shape_mismatch_raises_witness :
    ([[1]] : Mat).length ≠ ([] : Mat).length ∧
    (MLP_classifier.init [[1]] [] false = Except.error obsMismatchMsg ∧
      MLP_regressor.init [[1]] [] false = Except.error obsMismatchMsg) :=
  ⟨by decide, C6_shape_mismatch_raises [[1]] [] false (by decide)⟩

/-- A regressor configured with two hidden layers and dropout zero. -/
def rBugState : MLP_regressor := ⟨[[1]], [[1]], 2, 2, "relu", 64, 1000, 0, false⟩

/-- The classifier configured identically, for the parallel comparison. -/
def cParState : MLP_classifier := ⟨[[1]], [[1]], "relu", 64, 1000, 2, 2, 0, false⟩

/-- C7: evaluating the layer-stack builders at layers = 2, neurons = 2 and
dropout = 0. The regressor stack contains a Dropout(0) layer after its
second hidden layer — its while loop adds dropout unconditionally — while
the identically configured classifier stack contains no dropout layer, as
the claim describes. -/
theorem C7_regressor_dropout_unguarded :
    rBugState.buildLayers 1 =
      [Layer.dense 2 "relu", Layer.dense 2 "relu", Layer.dropoutL 0,
        Layer.dense 1 "linear"] ∧
    Layer.dropoutL 0 ∈ rBugState.buildLayers 1 ∧
    cParState.buildLayers 1 =
      [Layer.dense 2 "relu", Layer.dense 2 "relu", Layer.dense 1 "softmax"] ∧
    Layer.dropoutL 0 ∉ cParState.buildLayers 1 := by decide

/-- C8: in every fit call of the three recipes in which training happens,
the effect trace begins with exactly: creating the timestamped output
directory, changing the working directory into it, and writing the
recap_training.txt hyperparameter recap — and only then training. -/
theorem C8_env_setup_before_training (sC : MLP_classifier)
    (sR : MLP_regressor) (sA : Autoencoder) (ts : String) (o : TrainOracle) :
    (Effect.trainE ∈ (sC.fit_network ts o).effects →
      ∃ rest, (sC.fit_network ts o).effects =
        Effect.mkdirE ("Train MLP class - " ++ ts) ::
        Effect.chdirE ("Train MLP class - " ++ ts) ::
        Effect.writeFileE "recap_training.txt" :: Effect.trainE :: rest) ∧
    (Effect.trainE ∈ (sR.fit_network ts o).effects →
      ∃ rest, (sR.fit_network ts o).effects =
        Effect.mkdirE ("Train MLP regressor - " ++ ts) ::
        Effect.chdirE ("Train MLP regressor - " ++ ts) ::
        Effect.writeFileE "recap_training.txt" :: Effect.trainE :: rest) ∧
    (Effect.trainE ∈ (sA.fit ts o).effects →
      ∃ rest, (sA.fit ts o).effects =
        Effect.mkdirE ("Train Autoencoder - " ++ ts) ::
        Effect.chdirE ("Train Autoencoder - " ++ ts) ::
        Effect.writeFileE "recap_training.txt" :: Effect.trainE :: rest) := by
  refine ⟨?_, ?_, ?_⟩
  · by_cases hY : nCols sC.Y = 1
    · intro hin
      unfold MLP_classifier.fit_network at hin
      rw [if_pos hY] at hin
      simp [PyCall.effects] at hin
    · intro _
      unfold MLP_classifier.fit_network
      rw [if_neg hY]
      exact ⟨_, rfl⟩
  · intro _
    unfold MLP_regressor.fit_network
    split
    · exact ⟨_, rfl⟩
    · exact ⟨_, rfl⟩
  · intro _
    unfold Autoencoder.fit
    cases sA.save_txt with
    | none => exact ⟨_, rfl⟩
    | some b => cases b <;> exact ⟨_, rfl⟩

/-- C8 witness: the environment-setup theorem evaluated at concrete states
whose fit calls all reach training. -/
theorem C8_env_setup_before_training_witness :
    (Effect.trainE ∈ (cWitState.fit_network "t" oracleId).effects ∧
      Effect.trainE ∈ (rWitState.fit_network "t" oracleId).effects ∧
      Effect.trainE ∈ (aWitState2.fit "t" oracleId).effects) ∧
    ((∃ rest, (cWitState.fit_network "t" oracleId).effects =
        Effect.mkdirE ("Train MLP class - " ++ "t") ::
        Effect.chdirE ("Train MLP class - " ++ "t") ::
        Effect.writeFileE "recap_training.txt" :: Effect.trainE :: rest) ∧
     (∃ rest, (rWitState.fit_network "t" oracleId).effects =
        Effect.mkdirE ("Train MLP regressor - " ++ "t") ::
        Effect.chdirE ("Train MLP regressor - " ++ "t") ::
        Effect.writeFileE "recap_training.txt" :: Effect.trainE :: rest) ∧
     (∃ rest, (aWitState2.fit "t" oracleId).effects =
        Effect.mkdirE ("Train Autoencoder - " ++ "t") ::
        Effect.chdirE ("Train Autoencoder - " ++ "t") ::
        Effect.writeFileE "recap_training.txt" :: Effect.trainE :: rest)) :=
  ⟨⟨by decide, by decide, by decide⟩,
   (C8_env_setup_before_training cWitState rWitState aWitState2 "t"
      oracleId).1 (by decide),
   (C8_env_setup_before_training cWitState rWitState aWitState2 "t"
      oracleId).2.1 (by decide),
   (C8_env_setup_before_training cWitState rWitState aWitState2 "t"
      oracleId).2.2 (by decide)⟩

/-- C9: when a setter rejects a value and raises (classifier neurons,
autoencoder batch_size, regressor dropout), the stored field has already
been overwritten with the rejected value before the exception is raised, so
after the failed assignment the object holds the invalid value. -/
theorem C9_field_overwritten_on_raise (sC : MLP_classifier)
    (sA : Autoencoder) (sR : MLP_regressor) (nv bv : Int) (dv : ℚ)
    (hn : nv ≤ 0) (hb : bv ≤ 0) (hd : dv < 0 ∨ 1 ≤ dv) :
    ((sC.setNeurons nv).raised = true ∧
      (sC.setNeurons nv).state.n_neurons = nv) ∧
    ((sA.setBatchSize bv).raised = true ∧
      (sA.setBatchSize bv).state.batch_size = bv) ∧
    ((sR.setDropout dv).raised = true ∧
      (sR.setDropout dv).state.dropout = dv) := by
  refine ⟨⟨?_, ?_⟩, ⟨?_, ?_⟩, ⟨?_, ?_⟩⟩
  · simp only [MLP_classifier.setNeurons]; rw [if_pos hn]; rfl
  · simp only [MLP_classifier.setNeurons]; split <;> rfl
  · simp only [Autoencoder.setBatchSize]; rw [if_pos hb]; rfl
  · simp only [Autoencoder.setBatchSize]; split <;> rfl
  · simp only [MLP_regressor.setDropout]
    rcases hd with hd | hd
    · rw [if_pos hd]; rfl
    · rw [if_neg (not_lt.mpr (by linarith)), if_pos hd]; rfl
  · simp only [MLP_regressor.setDropout]
    split <;> first | rfl | (split <;> rfl)

/-- C9 witness: the overwrite-before-raise theorem evaluated at concrete
states and the concrete invalid values -1, 0 and 3/2. -/
theorem C9_field_overwritten_on_raise_witness :
    ((-1 : Int) ≤ 0 ∧ (0 : Int) ≤ 0 ∧ ((3/2 : ℚ) < 0 ∨ 1 ≤ (3/2 : ℚ))) ∧
    (((cWitState.setNeurons (-1)).raised = true ∧
        (cWitState.setNeurons (-1)).state.n_neurons = -1) ∧
      ((aWitState.setBatchSize 0).raised = true ∧
        (aWitState.setBatchSize 0).state.batch_size = 0) ∧
      ((rWitState.setDropout (3/2)).raised = true ∧
        (rWitState.setDropout (3/2)).state.dropout = 3/2)) :=
  ⟨⟨by norm_num, le_refl 0, Or.inr (by norm_num)⟩,
    C9_field_overwritten_on_raise cWitState aWitState rWitState (-1) 0 (3/2)
      (by norm_num) (le_refl 0) (Or.inr (by norm_num))⟩

/-- C10: for every Autoencoder built by the constructor, whatever the save
argument was, the save_txt attribute is absent, and fit therefore always
raises the AttributeError after training instead of returning normally. -/
theorem C10_autoencoder_fit_never_completes (X : Mat) (save : Bool)
    (ts : String) (o : TrainOracle) :
    (Autoencoder.init X save).save_txt = none ∧
    ((Autoencoder.init X save).fit ts o).result = Except.error aeAttrErr :=
  ⟨rfl, rfl⟩
